import Mathlib

set_option maxHeartbeats 1000000

/-!
Shallow embedding of the request-instrumentation pipeline of
gabrielsilvao/challenge1-app (Go): the tracing middleware
(pkg/middleware/tracing.go), the telemetry provider (pkg/telemetry,
the unnamed telemetry source file), and the handler wiring in main.go.

Go-specific control flow is made explicit:
- deferred calls (defer) run in LIFO order on every exit path of a
  function, both normal return and panic-driven stack unwinding; the
  middleware run below therefore appends the deferred events in LIFO
  order in both the normal and the panicking branch;
- statements that are NOT deferred do not run when the handler panics;
- os.Getenv returns the empty string for an unset variable, so an
  environment is a total function from names to strings.

Effects (metric recordings, span operations, header writes) are
modelled as explicit event lists; fallible construction steps whose
failure originates outside this repository (exporter construction,
instrument registration in the OTel SDK) are parameters of the
embedding, so every control-flow branch of the source is reachable.
-/

namespace Challenge1

/-- Typed attribute values, mirroring go.opentelemetry.io attribute
    kinds used by this program (string, int, bool; the only float
    attribute in the source, http.duration_ms, is integer-valued:
    float64 of duration.Milliseconds()). -/
inductive AttrValue where
  | str (s : String)
  | int (i : Int)
  | bool (b : Bool)
deriving DecidableEq, Repr

/-- A call forwarded by the responseWriter wrapper to the underlying
    http.ResponseWriter. -/
inductive UnderlyingCall where
  | writeHeader (code : Int)
  | write (len : Nat)
deriving DecidableEq, Repr

/-- State of the responseWriter decorator (pkg/middleware/tracing.go
    lines 13 to 32): captured status code, accumulated byte count,
    and the log of calls forwarded to the wrapped writer. -/
structure responseWriter where
  statusCode : Int
  written : Int
  forwarded : List UnderlyingCall
deriving DecidableEq, Repr

/-- newResponseWriter: initial captured status is http.StatusOK (200),
    no bytes written, nothing forwarded yet. -/
def newResponseWriter : responseWriter :=
  { statusCode := 200, written := 0, forwarded := [] }

/-- WriteHeader records the code (the latest call overwrites any
    earlier one) and forwards the call to the underlying writer. -/
def responseWriter.WriteHeader (rw : responseWriter) (code : Int) : responseWriter :=
  { rw with statusCode := code,
            forwarded := rw.forwarded ++ [UnderlyingCall.writeHeader code] }

/-- Write forwards the buffer to the underlying writer (whose reply,
    a byte count n and an optional error, is the parameter
    underlying), accumulates n into written, and returns the
    underlying reply unchanged. The requested length is logged as the
    forwarded call. -/
def responseWriter.Write (rw : responseWriter) (len : Nat)
    (underlying : Nat × Option String) : (Nat × Option String) × responseWriter :=
  (underlying,
   { rw with written := rw.written + Int.ofNat underlying.fst,
             forwarded := rw.forwarded ++ [UnderlyingCall.write len] })

/-- One step a wrapped handler performs on the response writer:
    set a status code, or write a buffer of length len to which the
    underlying writer replies with byte count n and optional error. -/
inductive HandlerStep where
  | writeHeader (code : Int)
  | write (len n : Nat) (err : Option String)
deriving DecidableEq, Repr

/-- Behaviour of a wrapped handler: the response-writer steps it
    performs, and whether it then panics instead of returning
    (covering early returns as shorter step lists). -/
structure HandlerBehavior where
  steps : List HandlerStep
  panics : Bool
deriving DecidableEq, Repr

/-- Running the handler steps over the responseWriter state. -/
def runHandler : responseWriter → List HandlerStep → responseWriter
  | rw, [] => rw
  | rw, HandlerStep.writeHeader c :: rest => runHandler (rw.WriteHeader c) rest
  | rw, HandlerStep.write len n err :: rest =>
      runHandler (rw.Write len (n, err)).snd rest

/-- An inbound HTTP request, the fields the middleware reads. -/
structure Request where
  method : String
  path : String
  url : String
  host : String
  userAgent : String
  remoteAddr : String
  tls : Bool
  forwardedProto : String
deriving DecidableEq, Repr

/-- getScheme (pkg/middleware/tracing.go lines 86 to 94): https when
    TLS is present, else the X-Forwarded-Proto header when non-empty,
    else http. -/
def getScheme (r : Request) : String :=
  if r.tls then "https"
  else if r.forwardedProto ≠ "" then r.forwardedProto
  else "http"

/-- Telemetry and span operations performed by the middleware, in
    program order. serveNext marks the invocation of the downstream
    handler. -/
inductive TelEvent where
  | startRequest
  | endRequest
  | spanStart (name : String) (attrs : List (String × AttrValue))
  | spanEnd
  | setResponseHeader (name value : String)
  | serveNext
  | setSpanAttrs (statusCode responseSize : Int) (durationMs : Nat)
  | setSpanErrorAttr
  | recordRequest (method path : String) (statusCode : Int) (durationNs : Nat)
deriving DecidableEq, Repr

/-- TracingMiddleware (pkg/middleware/tracing.go lines 35 to 83) run
    on one request. traceID stands for the trace identifier of the
    span opened for this request; elapsedNs for the wall-clock
    duration measured by time.Since(start). Returns the event list,
    the final responseWriter state, and whether a panic propagates out
    of the middleware. Deferred calls (span.End registered after
    tel.EndRequest) run in LIFO order on both exit paths; the
    attribute-setting and metric-recording statements after
    next.ServeHTTP are not deferred, so they appear only in the
    normal-return branch. -/
def TracingMiddleware (traceID : String) (r : Request) (elapsedNs : Nat)
    (h : HandlerBehavior) : List TelEvent × responseWriter × Bool :=
  let spanAttrs : List (String × AttrValue) :=
    [ ("http.method", AttrValue.str r.method),
      ("http.url", AttrValue.str r.url),
      ("http.host", AttrValue.str r.host),
      ("http.user_agent", AttrValue.str r.userAgent),
      ("http.remote_addr", AttrValue.str r.remoteAddr),
      ("http.scheme", AttrValue.str (getScheme r)) ]
  let pre : List TelEvent :=
    [ TelEvent.startRequest,
      TelEvent.spanStart r.path spanAttrs,
      TelEvent.setResponseHeader "X-Trace-ID" traceID,
      TelEvent.serveNext ]
  let rw := runHandler newResponseWriter h.steps
  if h.panics then
    (pre ++ [TelEvent.spanEnd, TelEvent.endRequest], rw, true)
  else
    let post : List TelEvent :=
      [TelEvent.setSpanAttrs rw.statusCode rw.written (elapsedNs / 1000000)] ++
      (if rw.statusCode ≥ 400 then [TelEvent.setSpanErrorAttr] else []) ++
      [ TelEvent.recordRequest r.method r.path rw.statusCode elapsedNs,
        TelEvent.spanEnd, TelEvent.endRequest ]
    (pre ++ post, rw, false)

/-- Recognizer for span-open events. -/
def isSpanStart : TelEvent → Bool
  | TelEvent.spanStart _ _ => true
  | _ => false

/-- Recognizer for span-close events. -/
def isSpanEnd : TelEvent → Bool
  | TelEvent.spanEnd => true
  | _ => false

/-- Recognizer for StartRequest events. -/
def isStartRequest : TelEvent → Bool
  | TelEvent.startRequest => true
  | _ => false

/-- Recognizer for EndRequest events. -/
def isEndRequest : TelEvent → Bool
  | TelEvent.endRequest => true
  | _ => false

/-- Recognizer for the downstream-handler invocation. -/
def isServeNext : TelEvent → Bool
  | TelEvent.serveNext => true
  | _ => false

/-- Recognizer for the span-attribute finalization event. -/
def isSetSpanAttrs : TelEvent → Bool
  | TelEvent.setSpanAttrs _ _ _ => true
  | _ => false

/-- Recognizer for RecordRequest events. -/
def isRecordRequest : TelEvent → Bool
  | TelEvent.recordRequest _ _ _ _ => true
  | _ => false

/-- Delta applied to the active-request up-down counter by one event:
    StartRequest adds 1, EndRequest adds -1 (telemetry source,
    StartRequest and EndRequest). -/
def gaugeDelta : TelEvent → Int
  | TelEvent.startRequest => 1
  | TelEvent.endRequest => -1
  | _ => 0

/-- One operation on a metric instrument (telemetry source,
    RecordRequest and friends). -/
inductive MetricOp where
  | counterAdd (name : String) (delta : Int) (attrs : List (String × AttrValue))
  | histogramRecordF (name : String) (durationNs : Nat) (attrs : List (String × AttrValue))
  | histogramRecordI (name : String) (value : Int) (attrs : List (String × AttrValue))
  | upDownAdd (name : String) (delta : Int)
deriving DecidableEq, Repr

/-- RecordRequest (telemetry source, lines 273 to 286): builds the
    attribute set {http.method, http.route, http.status_code}, adds 1
    to the request counter, records the duration histogram (the
    source records duration.Seconds(); the duration is carried here
    in nanoseconds unconverted), and adds 1 to the error counter when
    statusCode is at least 400 — all with the same attributes. -/
def RecordRequest (method path : String) (statusCode : Int) (durationNs : Nat) :
    List MetricOp :=
  let attrs : List (String × AttrValue) :=
    [ ("http.method", AttrValue.str method),
      ("http.route", AttrValue.str path),
      ("http.status_code", AttrValue.int statusCode) ]
  [ MetricOp.counterAdd "http_requests_total" 1 attrs,
    MetricOp.histogramRecordF "http_request_duration_seconds" durationNs attrs ] ++
  (if statusCode ≥ 400 then [MetricOp.counterAdd "http_errors_total" 1 attrs] else [])

/-- StartRequest (telemetry source, lines 289 to 291): adds +1 to the
    active-request up-down counter. -/
def StartRequest : List MetricOp :=
  [MetricOp.upDownAdd "http_requests_active" 1]

/-- EndRequest (telemetry source, lines 294 to 296): adds -1 to the
    active-request up-down counter. -/
def EndRequest : List MetricOp :=
  [MetricOp.upDownAdd "http_requests_active" (-1)]

/-- Shutdown (telemetry source, lines 250 to 270). Each provider field
    is an Option: none when the field is nil (then no shutdown is
    attempted on it), some err when present, where err is none on a
    successful shutdown and some msg on a failed one. Both providers
    are visited unconditionally; failures are collected into errs and
    wrapped into a single aggregated error (modelled as the list of
    formatted messages), returned only when errs is non-empty. -/
def Shutdown (tracerProviderResult meterProviderResult : Option (Option String)) :
    Option (List String) :=
  let errs : List String := []
  let errs :=
    match tracerProviderResult with
    | some (some e) => errs ++ ["tracer provider shutdown: " ++ e]
    | _ => errs
  let errs :=
    match meterProviderResult with
    | some (some e) => errs ++ ["meter provider shutdown: " ++ e]
    | _ => errs
  if errs.length > 0 then some errs else none

/-- Config (telemetry source, lines 23 to 29). -/
structure Config where
  ServiceName : String
  ServiceVersion : String
  Environment : String
  OTLPEndpoint : String
  Insecure : Bool
deriving DecidableEq, Repr

/-- NewConfig (telemetry source, lines 47 to 77) over an environment
    getenv; os.Getenv yields the empty string for unset variables. -/
def NewConfig (getenv : String → String) : Config :=
  let endpoint :=
    if getenv "OTEL_EXPORTER_OTLP_ENDPOINT" = "" then "localhost:4318"
    else getenv "OTEL_EXPORTER_OTLP_ENDPOINT"
  let serviceName :=
    if getenv "OTEL_SERVICE_NAME" = "" then "sample-web-app"
    else getenv "OTEL_SERVICE_NAME"
  let serviceVersion :=
    if getenv "OTEL_SERVICE_VERSION" = "" then "1.0.0"
    else getenv "OTEL_SERVICE_VERSION"
  let env :=
    if getenv "ENV" = "" then "development"
    else getenv "ENV"
  let insecure := getenv "OTEL_INSECURE" ≠ "false"
  { ServiceName := serviceName, ServiceVersion := serviceVersion,
    Environment := env, OTLPEndpoint := endpoint, Insecure := insecure }

/-- Port lookup in main (main.go lines 63 to 66): PORT from the
    environment, defaulting to 8080 when unset. -/
def mainPort (getenv : String → String) : String :=
  if getenv "PORT" = "" then "8080" else getenv "PORT"

/-- The tracer provider as configured by initTracerProvider
    (telemetry source, lines 137 to 161): OTLP HTTP exporter at the
    configured endpoint, insecure option per config, a batcher with
    5 second batch timeout and max batch size 512, always-on sampler. -/
structure TracerProvider where
  endpoint : String
  insecure : Bool
  batchTimeoutSeconds : Nat
  maxExportBatchSize : Nat
  alwaysSample : Bool
deriving DecidableEq, Repr

/-- The meter provider as configured by initMeterProvider (telemetry
    source, lines 164 to 188): OTLP HTTP exporter at the configured
    endpoint, periodic reader with 15 second interval. -/
structure MeterProvider where
  endpoint : String
  insecure : Bool
  readerIntervalSeconds : Nat
deriving DecidableEq, Repr

/-- initTracerProvider; exporter construction happens in the OTel SDK,
    so its outcome is the parameter exporterErr. -/
def initTracerProvider (cfg : Config) (exporterErr : Option String) :
    Except String TracerProvider :=
  match exporterErr with
  | some e => Except.error e
  | none => Except.ok
      { endpoint := cfg.OTLPEndpoint, insecure := cfg.Insecure,
        batchTimeoutSeconds := 5, maxExportBatchSize := 512, alwaysSample := true }

/-- initMeterProvider; exporter construction outcome is the parameter
    exporterErr. -/
def initMeterProvider (cfg : Config) (exporterErr : Option String) :
    Except String MeterProvider :=
  match exporterErr with
  | some e => Except.error e
  | none => Except.ok
      { endpoint := cfg.OTLPEndpoint, insecure := cfg.Insecure,
        readerIntervalSeconds := 15 }

/-- A registered metric instrument: name, unit, description. -/
structure Instrument where
  name : String
  unit : String
  description : String
deriving DecidableEq, Repr

/-- initMetrics (telemetry source, lines 191 to 247): registers the
    five instruments in source order, aborting at the first
    registration failure. Registration happens in the OTel SDK, so
    the outcome per instrument name is the parameter reg. -/
def initMetrics (reg : String → Option String) : Except String (List Instrument) :=
  match reg "http_requests_total" with
  | some e => Except.error e
  | none =>
  match reg "http_request_duration_seconds" with
  | some e => Except.error e
  | none =>
  match reg "http_requests_active" with
  | some e => Except.error e
  | none =>
  match reg "http_errors_total" with
  | some e => Except.error e
  | none =>
  match reg "echo_message_length" with
  | some e => Except.error e
  | none => Except.ok
      [ { name := "http_requests_total", unit := "{request}",
          description := "Total number of HTTP requests" },
        { name := "http_request_duration_seconds", unit := "s",
          description := "HTTP request duration in seconds" },
        { name := "http_requests_active", unit := "{request}",
          description := "Number of active HTTP requests" },
        { name := "http_errors_total", unit := "{error}",
          description := "Total number of HTTP errors" },
        { name := "echo_message_length", unit := "{character}",
          description := "Length of echo messages" } ]

/-- The process-global OTel registry mutated by otel.SetTracerProvider,
    otel.SetMeterProvider and otel.SetTextMapPropagator. -/
structure OtelGlobals where
  tracerProvider : Option TracerProvider
  meterProvider : Option MeterProvider
  propagatorTraceContext : Bool
  propagatorBaggage : Bool
deriving DecidableEq, Repr

/-- Initial process-global registry: SDK defaults, nothing from this
    program installed yet. -/
def initialGlobals : OtelGlobals :=
  { tracerProvider := none, meterProvider := none,
    propagatorTraceContext := false, propagatorBaggage := false }

/-- The Telemetry handle as far as Initialize constructs it. -/
structure Telemetry where
  tracerProvider : TracerProvider
  meterProvider : MeterProvider
  instruments : List Instrument
deriving DecidableEq, Repr

/-- Initialize (telemetry source, lines 80 to 134) over the global
    registry g. Outcomes of SDK-level fallible steps are parameters:
    resourceErr for resource.Merge, the two exporter outcomes, reg for
    instrument registration. Mirrors the source order: resource, tracer
    provider, meter provider, then the three global setters, then
    initMetrics; an initMetrics failure returns (nil, error) after the
    globals were already overwritten. -/
def Initialize (cfg : Config) (resourceErr tracerExporterErr meterExporterErr : Option String)
    (reg : String → Option String) (g : OtelGlobals) :
    Except String Telemetry × OtelGlobals :=
  match resourceErr with
  | some e => (Except.error ("failed to create resource: " ++ e), g)
  | none =>
  match initTracerProvider cfg tracerExporterErr with
  | Except.error e => (Except.error ("failed to initialize tracer provider: " ++ e), g)
  | Except.ok tp =>
  match initMeterProvider cfg meterExporterErr with
  | Except.error e => (Except.error ("failed to initialize meter provider: " ++ e), g)
  | Except.ok mp =>
  let g1 : OtelGlobals :=
    { tracerProvider := some tp, meterProvider := some mp,
      propagatorTraceContext := true, propagatorBaggage := true }
  match initMetrics reg with
  | Except.error e => (Except.error ("failed to initialize metrics: " ++ e), g1)
  | Except.ok instruments =>
      (Except.ok { tracerProvider := tp, meterProvider := mp, instruments := instruments }, g1)

/-- An HTTP response as produced by the plain handlers in main.go. -/
structure HTTPResponse where
  contentType : Option String
  statusCode : Int
  body : String
deriving DecidableEq, Repr

/-- healthHandler (main.go lines 206 to 211): fixed JSON body, status
    200, content type application/json; no telemetry involvement. -/
def healthHandler : HTTPResponse :=
  { contentType := some "application/json", statusCode := 200,
    body := "\x7b\"status\":\"healthy\",\"service\":\"sample-web-app\"\x7d" }

/-- readinessHandler (main.go lines 213 to 250) as a function of
    whether templates are loaded and whether the telemetry handle tel
    is non-nil. Returns the response together with the checks map the
    handler computes internally (as an association list in insertion
    order); in the source that map is built — including a telemetry
    entry valued ok or disabled — but the response body written is a
    hardcoded JSON string that does not use the map. -/
def readinessHandler (templatesLoaded telPresent : Bool) :
    HTTPResponse × List (String × String) :=
  let ready := true
  let checks : List (String × String) := [("templates", "ok")]
  let (ready, checks) :=
    if ¬ templatesLoaded then (false, [("templates", "not loaded")]) else (ready, checks)
  let checks :=
    checks ++ [("telemetry", if telPresent then "ok" else "disabled")]
  if ready then
    ({ contentType := some "application/json", statusCode := 200,
       body := "\x7b\"status\":\"ready\",\"checks\":\x7b\"templates\":\"ok\"\x7d\x7d" },
     checks)
  else
    ({ contentType := some "application/json", statusCode := 503,
       body := "\x7b\"status\":\"not ready\",\"checks\":\x7b\"templates\":\"failed\"\x7d\x7d" },
     checks)

/-- Which handler main installs on the server. -/
inductive InstalledHandler where
  | wrapped
  | unwrapped
deriving DecidableEq, Repr

/-- Startup wiring in main (main.go lines 36 to 61 and 92 to 95): on
    telemetry initialization failure main only logs a warning and
    continues, so the server is started either way; the middleware is
    installed around the mux only when tel is non-nil. Returns the
    installed handler and whether the server reaches ListenAndServe. -/
def mainStartup (telInitOk : Bool) : InstalledHandler × Bool :=
  (if telInitOk then InstalledHandler.wrapped else InstalledHandler.unwrapped, true)

/-- Total of the byte counts the underlying writer reports across the
    write steps of a handler behaviour. -/
def handlerBytes : List HandlerStep → Int
  | [] => 0
  | HandlerStep.writeHeader _ :: rest => handlerBytes rest
  | HandlerStep.write _ n _ :: rest => Int.ofNat n + handlerBytes rest

/-- Whether a handler step list contains a WriteHeader call. -/
def hasWriteHeader : List HandlerStep → Bool
  | [] => false
  | HandlerStep.writeHeader _ :: _ => true
  | HandlerStep.write _ _ _ :: rest => hasWriteHeader rest

/-- Recognizer for an add on the counter of the given name. -/
def isCounterAddNamed (nm : String) : MetricOp → Bool
  | MetricOp.counterAdd n _ _ => n == nm
  | _ => false

/-- Recognizer for a record on the duration histogram of the given
    name. -/
def isHistogramRecordNamed (nm : String) : MetricOp → Bool
  | MetricOp.histogramRecordF n _ _ => n == nm
  | _ => false

/-- A concrete request used to instantiate universally quantified
    statements. -/
def sampleRequest : Request :=
  { method := "GET", path := "/x", url := "/x", host := "example.test",
    userAgent := "ua", remoteAddr := "10.0.0.1:5555", tls := false,
    forwardedProto := "" }

/-- Running handler steps adds the reported byte counts to written. -/
theorem runHandler_written (steps : List HandlerStep) :
    ∀ rw : responseWriter, (runHandler rw steps).written = rw.written + handlerBytes steps := by
  induction steps with
  | nil => intro rw; simp [runHandler, handlerBytes]
  | cons s rest ih =>
    intro rw
    cases s with
    | writeHeader c =>
        simp [runHandler, handlerBytes, responseWriter.WriteHeader, ih]
    | write len n err =>
        simp [runHandler, handlerBytes, responseWriter.Write, ih]
        ring

/-- Without a WriteHeader step the captured status is unchanged. -/
theorem runHandler_statusCode (steps : List HandlerStep) :
    ∀ rw : responseWriter, hasWriteHeader steps = false →
      (runHandler rw steps).statusCode = rw.statusCode := by
  induction steps with
  | nil => intro rw _; simp [runHandler]
  | cons s rest ih =>
    intro rw hwh
    cases s with
    | writeHeader c => simp [hasWriteHeader] at hwh
    | write len n err =>
        simp [hasWriteHeader] at hwh
        exact ih _ hwh

/-- C1: for every request through TracingMiddleware, exactly one span
    is opened (Tracer.Start) and exactly one span is closed (span.End),
    on every exit path of the wrapped handler — normal return, early
    return, and panic (span.End is deferred, so it also runs while the
    stack unwinds). -/
theorem C1_span_opened_and_closed_exactly_once
    (traceID : String) (r : Request) (elapsedNs : Nat) (h : HandlerBehavior) :
    ((TracingMiddleware traceID r elapsedNs h).fst.countP isSpanStart = 1) ∧
    ((TracingMiddleware traceID r elapsedNs h).fst.countP isSpanEnd = 1) := by
  obtain ⟨steps, panics⟩ := h
  cases panics
  · by_cases hs : (runHandler newResponseWriter steps).statusCode ≥ 400 <;>
      simp [TracingMiddleware, hs, isSpanStart, isSpanEnd,
            List.countP_append, List.countP_cons]
  · simp [TracingMiddleware, isSpanStart, isSpanEnd,
          List.countP_append, List.countP_cons]

/-- C2: for every request through TracingMiddleware, StartRequest
    (gauge +1) happens exactly once and strictly before the downstream
    handler is invoked, EndRequest (gauge -1) happens exactly once on
    every exit path (it is deferred, so also under panic), and the sum
    of the deltas applied to the active-request gauge over the whole
    request is zero. -/
theorem C2_active_request_gauge_paired
    (traceID : String) (r : Request) (elapsedNs : Nat) (h : HandlerBehavior) :
    ((TracingMiddleware traceID r elapsedNs h).fst.countP isStartRequest = 1) ∧
    ((TracingMiddleware traceID r elapsedNs h).fst.countP isEndRequest = 1) ∧
    (∃ i j : Nat, i < j ∧
      (TracingMiddleware traceID r elapsedNs h).fst[i]? = some TelEvent.startRequest ∧
      (TracingMiddleware traceID r elapsedNs h).fst[j]? = some TelEvent.serveNext) ∧
    (((TracingMiddleware traceID r elapsedNs h).fst.map gaugeDelta).sum = 0) := by
  obtain ⟨steps, panics⟩ := h
  cases panics
  · refine ⟨?_, ?_, ⟨0, 3, by omega, rfl, rfl⟩, ?_⟩ <;>
      by_cases hs : (runHandler newResponseWriter steps).statusCode ≥ 400 <;>
      simp [TracingMiddleware, hs, isStartRequest, isEndRequest, gaugeDelta,
            List.countP_append, List.countP_cons]
  · refine ⟨?_, ?_, ⟨0, 3, by omega, rfl, rfl⟩, ?_⟩ <;>
      simp [TracingMiddleware, isStartRequest, isEndRequest, gaugeDelta,
            List.countP_append, List.countP_cons]

/-- C8: every response produced by TracingMiddleware carries the
    X-Trace-ID response header set to the trace identifier of the
    span opened for the request, and the header is set strictly before
    the downstream handler is invoked. -/
theorem C8_trace_id_header_set_before_handler
    (traceID : String) (r : Request) (elapsedNs : Nat) (h : HandlerBehavior) :
    ∃ i j : Nat, i < j ∧
      (TracingMiddleware traceID r elapsedNs h).fst[i]? =
        some (TelEvent.setResponseHeader "X-Trace-ID" traceID) ∧
      (TracingMiddleware traceID r elapsedNs h).fst[j]? = some TelEvent.serveNext := by
  obtain ⟨steps, panics⟩ := h
  cases panics <;> exact ⟨2, 3, by omega, rfl, rfl⟩

/-- C3 counterexample: with a handler that panics after setting status
    404, the middleware run contains no span-attribute finalization
    event and no RecordRequest call — those statements follow
    next.ServeHTTP without being deferred, so a panic skips them. -/
theorem C3_counterexample_panic_skips_finalization :
    ((TracingMiddleware "tid" sampleRequest 5000000
        { steps := [HandlerStep.writeHeader 404], panics := true }).fst.countP
        isSetSpanAttrs = 0) ∧
    ((TracingMiddleware "tid" sampleRequest 5000000
        { steps := [HandlerStep.writeHeader 404], panics := true }).fst.countP
        isRecordRequest = 0) := by
  decide

/-- C3 amended: on a normal (or early) return the middleware reads the
    captured status and byte count, sets the span attributes
    status_code, response_size and duration_ms, sets the error
    attribute exactly when status is at least 400, and calls
    RecordRequest with the same status and duration; on a panic exit
    only the deferred span.End and EndRequest run, and the
    attribute-setting and RecordRequest steps are skipped. -/
theorem C3_finalization_only_on_normal_return
    (traceID : String) (r : Request) (elapsedNs : Nat) (h : HandlerBehavior) :
    (h.panics = false →
      TelEvent.setSpanAttrs (runHandler newResponseWriter h.steps).statusCode
          (runHandler newResponseWriter h.steps).written (elapsedNs / 1000000) ∈
        (TracingMiddleware traceID r elapsedNs h).fst ∧
      (TelEvent.setSpanErrorAttr ∈ (TracingMiddleware traceID r elapsedNs h).fst ↔
        (runHandler newResponseWriter h.steps).statusCode ≥ 400) ∧
      TelEvent.recordRequest r.method r.path
          (runHandler newResponseWriter h.steps).statusCode elapsedNs ∈
        (TracingMiddleware traceID r elapsedNs h).fst) ∧
    (h.panics = true →
      (TracingMiddleware traceID r elapsedNs h).fst.countP isSetSpanAttrs = 0 ∧
      (TracingMiddleware traceID r elapsedNs h).fst.countP isRecordRequest = 0 ∧
      (TracingMiddleware traceID r elapsedNs h).fst.countP isSpanEnd = 1 ∧
      (TracingMiddleware traceID r elapsedNs h).fst.countP isEndRequest = 1) := by
  obtain ⟨steps, panics⟩ := h
  cases panics
  · constructor
    · intro _
      by_cases hs : (runHandler newResponseWriter steps).statusCode ≥ 400 <;>
        simp [TracingMiddleware, hs]
    · intro hc
      simp at hc
  · constructor
    · intro hc
      simp at hc
    · intro _
      simp [TracingMiddleware, isSetSpanAttrs, isRecordRequest, isSpanEnd, isEndRequest,
            List.countP_append, List.countP_cons]

/-- C3 witness for the amended statement: at a concrete non-panicking
    handler the RecordRequest event with the captured status is
    present, and at a concrete panicking handler no RecordRequest
    event occurs. -/
theorem C3_finalization_only_on_normal_return_witness :
    TelEvent.recordRequest "GET" "/x" 404 5000000 ∈
      (TracingMiddleware "tid" sampleRequest 5000000
        { steps := [HandlerStep.writeHeader 404], panics := false }).fst ∧
    (TracingMiddleware "tid" sampleRequest 5000000
        { steps := [], panics := true }).fst.countP isRecordRequest = 0 := by
  constructor
  · exact ((C3_finalization_only_on_normal_return "tid" sampleRequest 5000000
      { steps := [HandlerStep.writeHeader 404], panics := false }).1 rfl).2.2
  · exact ((C3_finalization_only_on_normal_return "tid" sampleRequest 5000000
      { steps := [], panics := true }).2 rfl).2.1

/-- C4: the responseWriter wrapper records the status of the latest
    WriteHeader call, defaults to 200 when WriteHeader is never
    called, accumulates the bytes written across all Write calls, and
    forwards every WriteHeader and Write to the underlying writer,
    returning the underlying reply unchanged. -/
theorem C4_response_writer_capture
    (rw : responseWriter) (c : Int) (len n : Nat) (err : Option String)
    (steps : List HandlerStep) :
    newResponseWriter.statusCode = 200 ∧
    (rw.WriteHeader c).statusCode = c ∧
    (rw.WriteHeader c).forwarded = rw.forwarded ++ [UnderlyingCall.writeHeader c] ∧
    (rw.Write len (n, err)).fst = (n, err) ∧
    (rw.Write len (n, err)).snd.written = rw.written + Int.ofNat n ∧
    (rw.Write len (n, err)).snd.forwarded = rw.forwarded ++ [UnderlyingCall.write len] ∧
    (runHandler newResponseWriter steps).written = handlerBytes steps ∧
    (hasWriteHeader steps = false →
      (runHandler newResponseWriter steps).statusCode = 200) := by
  refine ⟨rfl, rfl, rfl, rfl, rfl, rfl, ?_, ?_⟩
  · simpa [newResponseWriter] using runHandler_written steps newResponseWriter
  · intro hwh
    simpa [newResponseWriter] using runHandler_statusCode steps newResponseWriter hwh

/-- C4 witness: a handler writing 3 then 4 bytes without WriteHeader
    yields captured status 200 and total 7. -/
theorem C4_response_writer_capture_witness :
    hasWriteHeader [HandlerStep.write 3 3 none, HandlerStep.write 4 4 none] = false ∧
    (runHandler newResponseWriter
      [HandlerStep.write 3 3 none, HandlerStep.write 4 4 none]).statusCode = 200 ∧
    (runHandler newResponseWriter
      [HandlerStep.write 3 3 none, HandlerStep.write 4 4 none]).written = 7 := by
  refine ⟨by decide, ?_, ?_⟩
  · exact (C4_response_writer_capture newResponseWriter 0 0 0 none
      [HandlerStep.write 3 3 none, HandlerStep.write 4 4 none]).2.2.2.2.2.2.2 rfl
  · exact ((C4_response_writer_capture newResponseWriter 0 0 0 none
      [HandlerStep.write 3 3 none, HandlerStep.write 4 4 none]).2.2.2.2.2.2.1).trans
      (by decide)

/-- C5: RecordRequest adds exactly 1 to the request counter and
    records exactly one duration value, both tagged with
    {http.method, http.route, http.status_code}, and adds 1 to the
    error counter with the same attributes exactly when the status is
    at least 400. -/
theorem C5_record_request_metrics
    (method path : String) (statusCode : Int) (durationNs : Nat) :
    ((RecordRequest method path statusCode durationNs).countP
        (isCounterAddNamed "http_requests_total") = 1) ∧
    (MetricOp.counterAdd "http_requests_total" 1
        [ ("http.method", AttrValue.str method), ("http.route", AttrValue.str path),
          ("http.status_code", AttrValue.int statusCode) ] ∈
      RecordRequest method path statusCode durationNs) ∧
    ((RecordRequest method path statusCode durationNs).countP
        (isHistogramRecordNamed "http_request_duration_seconds") = 1) ∧
    (MetricOp.histogramRecordF "http_request_duration_seconds" durationNs
        [ ("http.method", AttrValue.str method), ("http.route", AttrValue.str path),
          ("http.status_code", AttrValue.int statusCode) ] ∈
      RecordRequest method path statusCode durationNs) ∧
    ((RecordRequest method path statusCode durationNs).countP
        (isCounterAddNamed "http_errors_total") = if statusCode ≥ 400 then 1 else 0) ∧
    (statusCode ≥ 400 →
      MetricOp.counterAdd "http_errors_total" 1
        [ ("http.method", AttrValue.str method), ("http.route", AttrValue.str path),
          ("http.status_code", AttrValue.int statusCode) ] ∈
        RecordRequest method path statusCode durationNs) := by
  by_cases hs : statusCode ≥ 400 <;>
    simp [RecordRequest, hs, isCounterAddNamed, isHistogramRecordNamed,
          List.countP_append, List.countP_cons]

/-- C5 witness: at status 500 the error counter is incremented with
    the shared attribute set. -/
theorem C5_record_request_metrics_witness :
    (500 : Int) ≥ 400 ∧
    MetricOp.counterAdd "http_errors_total" 1
      [ ("http.method", AttrValue.str "GET"), ("http.route", AttrValue.str "/x"),
        ("http.status_code", AttrValue.int 500) ] ∈ RecordRequest "GET" "/x" 500 7 := by
  exact ⟨by decide,
    (C5_record_request_metrics "GET" "/x" 500 7).2.2.2.2.2 (by decide)⟩

/-- C6 evaluation at the failing input (telemetry initialization
    failed, so tel is nil): main still starts the server with the
    unwrapped mux, the health endpoint answers 200 with status
    healthy, and the readiness handler internally marks the telemetry
    check disabled with templates ok — but the response body it writes
    is the hardcoded ready JSON, which does not contain the telemetry
    check at all. -/
theorem C6_readiness_body_omits_telemetry_check :
    mainStartup false = (InstalledHandler.unwrapped, true) ∧
    healthHandler.statusCode = 200 ∧
    healthHandler.body = "\x7b\"status\":\"healthy\",\"service\":\"sample-web-app\"\x7d" ∧
    (readinessHandler true false).snd = [("templates", "ok"), ("telemetry", "disabled")] ∧
    (readinessHandler true false).fst.statusCode = 200 ∧
    (readinessHandler true false).fst.body =
      "\x7b\"status\":\"ready\",\"checks\":\x7b\"templates\":\"ok\"\x7d\x7d" ∧
    ¬ List.IsInfix "telemetry".data (readinessHandler true false).fst.body.data := by
  refine ⟨rfl, rfl, rfl, rfl, rfl, rfl, ?_⟩
  decide

/-- C7: Shutdown visits both providers regardless of the other
    outcome: with both providers present it returns nil exactly when
    both shut down cleanly; when one or both fail the errors are
    aggregated together — in particular a tracer failure does not
    short-circuit the meter shutdown, whose error still appears in the
    aggregate. -/
theorem C7_shutdown_aggregates_errors (te me : Option String) (e1 e2 : String) :
    (Shutdown (some te) (some me) = none ↔ te = none ∧ me = none) ∧
    (Shutdown (some (some e1)) (some (some e2)) =
      some ["tracer provider shutdown: " ++ e1, "meter provider shutdown: " ++ e2]) ∧
    (Shutdown (some none) (some (some e2)) = some ["meter provider shutdown: " ++ e2]) ∧
    (Shutdown (some (some e1)) (some none) = some ["tracer provider shutdown: " ++ e1]) := by
  refine ⟨?_, ?_, ?_, ?_⟩
  · cases te <;> cases me <;> simp [Shutdown]
  · simp [Shutdown]
  · simp [Shutdown]
  · simp [Shutdown]

/-- C9: with the corresponding variables unset (os.Getenv yields the
    empty string) NewConfig takes the documented defaults and main
    listens on 8080; and for every environment the insecure flag is
    true exactly when OTEL_INSECURE is not the exact string false. -/
theorem C9_config_defaults (g : String → String)
    (h1 : g "OTEL_EXPORTER_OTLP_ENDPOINT" = "")
    (h2 : g "OTEL_SERVICE_NAME" = "")
    (h3 : g "OTEL_SERVICE_VERSION" = "")
    (h4 : g "ENV" = "")
    (h5 : g "PORT" = "") :
    (NewConfig g).ServiceName = "sample-web-app" ∧
    (NewConfig g).ServiceVersion = "1.0.0" ∧
    (NewConfig g).Environment = "development" ∧
    (NewConfig g).OTLPEndpoint = "localhost:4318" ∧
    mainPort g = "8080" ∧
    (∀ g2 : String → String,
      ((NewConfig g2).Insecure = true ↔ g2 "OTEL_INSECURE" ≠ "false")) := by
  refine ⟨?_, ?_, ?_, ?_, ?_, ?_⟩
  · simp [NewConfig, h2]
  · simp [NewConfig, h3]
  · simp [NewConfig, h4]
  · simp [NewConfig, h1]
  · simp [mainPort, h5]
  · intro g2
    simp [NewConfig]

/-- C9 witness: the empty environment yields exactly the default
    configuration, the default port, and insecure transport. -/
theorem C9_config_defaults_witness :
    (NewConfig (fun _ => "")).ServiceName = "sample-web-app" ∧
    (NewConfig (fun _ => "")).OTLPEndpoint = "localhost:4318" ∧
    mainPort (fun _ => "") = "8080" ∧
    (NewConfig (fun _ => "")).Insecure = true := by
  have h := C9_config_defaults (fun _ => "") rfl rfl rfl rfl rfl
  exact ⟨h.1, h.2.2.2.1, h.2.2.2.2.1, (h.2.2.2.2.2 (fun _ => "")).mpr (by decide)⟩

/-- C10: Initialize installs the global tracer provider, meter
    provider and propagator before registering the instruments, so
    when instrument registration fails it returns an error (a nil
    handle) while the global registry keeps the newly constructed
    providers — failed initialization is not atomic in the
    process-global state. -/
theorem C10_initialize_globals_survive_metrics_failure
    (cfg : Config) (reg : String → Option String) (g : OtelGlobals) (e : String)
    (hreg : initMetrics reg = Except.error e) :
    Initialize cfg none none none reg g =
      (Except.error ("failed to initialize metrics: " ++ e),
       { tracerProvider := some
           { endpoint := cfg.OTLPEndpoint, insecure := cfg.Insecure,
             batchTimeoutSeconds := 5, maxExportBatchSize := 512, alwaysSample := true },
         meterProvider := some
           { endpoint := cfg.OTLPEndpoint, insecure := cfg.Insecure,
             readerIntervalSeconds := 15 },
         propagatorTraceContext := true, propagatorBaggage := true }) := by
  simp [Initialize, initTracerProvider, initMeterProvider, hreg]

/-- C10 witness: with every instrument registration failing, Initialize
    on the default configuration over the pristine global registry
    errors while the globals hold the new providers. -/
theorem C10_initialize_globals_survive_metrics_failure_witness :
    initMetrics (fun _ => some "boom") = Except.error "boom" ∧
    Initialize (NewConfig (fun _ => "")) none none none (fun _ => some "boom")
        initialGlobals =
      (Except.error "failed to initialize metrics: boom",
       { tracerProvider := some
           { endpoint := "localhost:4318", insecure := true,
             batchTimeoutSeconds := 5, maxExportBatchSize := 512, alwaysSample := true },
         meterProvider := some
           { endpoint := "localhost:4318", insecure := true,
             readerIntervalSeconds := 15 },
         propagatorTraceContext := true, propagatorBaggage := true }) := by
  refine ⟨rfl, ?_⟩
  exact C10_initialize_globals_survive_metrics_failure (NewConfig (fun _ => ""))
    (fun _ => some "boom") initialGlobals "boom" rfl
